import Mathlib

/-!
Shallow embedding of the crypto-trading-strategies core
(`src/backtest_engine.py` and `src/risk_manager.py`) and proofs of the
spec claims about it.  Python floats are modelled as exact rationals
(`ℚ`); the only genuinely real-valued operation, `np.std`'s square root,
is modelled with `Real.sqrt`.  Python strings are modelled as `String`,
dates as naturals ordered by calendar day, and `None` as `Option.none`.
-/

namespace Crypto

/-! ### Python string primitives used by the source -/

/-- Models Python `str.lower` (ASCII case folding; CJK characters are fixed
points in both Python and Lean). -/
def strLower (s : String) : String := ⟨s.data.map Char.toLower⟩

/-- `listStartsWith s t` is true when `t` is an initial run of `s`. -/
def listStartsWith : List Char → List Char → Bool
  | _, [] => true
  | [], _ :: _ => false
  | a :: s, b :: t => a == b && listStartsWith s t

/-- `listHasSub s t` is true when `t` occurs contiguously inside `s`. -/
def listHasSub : List Char → List Char → Bool
  | [], sub => listStartsWith [] sub
  | a :: s, sub => listStartsWith (a :: s) sub || listHasSub s sub

/-- Models the Python substring test `sub in s`. -/
def pyIn (sub s : String) : Bool := listHasSub s.data sub.data

/-- Models Python string interpolation of an optional string (f-strings print
`None` for `None`). -/
def pyStr : Option String → String
  | some str => str
  | none => "None"

/-- Models the Python format spec `f"{q:.2f}"`: fixed-point rendering with two
fractional digits.  Ties round half-up here while CPython rounds half-to-even;
no property below depends on the rendered digits, only on the fact that the
output consists of digits, a sign and a dot. -/
def format2f (q : ℚ) : String :=
  let n : ℤ := round (q * 100)
  let sgn := if n < 0 then "-" else ""
  let m := n.natAbs
  sgn ++ toString (m / 100) ++ "." ++ (if m % 100 < 10 then "0" else "") ++ toString (m % 100)

/-! ### BacktestEngine (`src/backtest_engine.py`) -/

/-- One entry of `BacktestEngine.trades`.  The Python code appends dicts of two
shapes; each constructor carries exactly the numeric fields of one shape, in
source order.  `timestamp` is an abstract tick; `strategy_info` is opaque data
never read back and is omitted. -/
inductive Trade where
  | buy (timestamp : ℕ) (price quantity cost fee capital : ℚ)
  | sell (timestamp : ℕ) (price quantity revenue fee pnl pnl_pct capital entry_price : ℚ)
deriving DecidableEq, Repr

/-- One entry of `BacktestEngine.equity_curve`. -/
structure EquityPoint where
  timestamp : ℕ
  capital : ℚ
  position_value : ℚ
  total_equity : ℚ
deriving DecidableEq, Repr

/-- The mutable state of `BacktestEngine`. -/
structure Engine where
  initial_capital : ℚ
  commission : ℚ
  slippage : ℚ
  capital : ℚ
  position : ℚ
  position_value : ℚ
  entry_price : ℚ
  trades : List Trade
  equity_curve : List EquityPoint
  total_trades : ℕ
  winning_trades : ℕ
  losing_trades : ℕ
deriving Repr

/-- `BacktestEngine.__init__`. -/
def mkEngine (initial_capital commission slippage : ℚ) : Engine :=
  { initial_capital := initial_capital
    commission := commission
    slippage := slippage
    capital := initial_capital
    position := 0
    position_value := 0
    entry_price := 0
    trades := []
    equity_curve := []
    total_trades := 0
    winning_trades := 0
    losing_trades := 0 }

/-- `BacktestEngine.execute_trade`. -/
def execute_trade (e : Engine) (timestamp : ℕ) (signal : String) (price quantity : ℚ) : Engine :=
  let execution_price := if signal = "long" then price * (1 + e.slippage) else price * (1 - e.slippage)
  if signal = "long" ∧ e.position = 0 then
    let cost := execution_price * quantity
    let fee := cost * e.commission
    let total_cost := cost + fee
    if total_cost ≤ e.capital then
      { e with
          position := quantity
          entry_price := execution_price
          capital := e.capital - total_cost
          position_value := cost
          trades := e.trades ++
            [Trade.buy timestamp execution_price quantity total_cost fee (e.capital - total_cost)] }
    else e
  else if signal = "close" ∧ e.position > 0 then
    let revenue := execution_price * e.position
    let fee := revenue * e.commission
    let net_revenue := revenue - fee
    let pnl := net_revenue - (e.entry_price * e.position + e.entry_price * e.position * e.commission)
    let pnl_pct := pnl / (e.entry_price * e.position) * 100
    { e with
        capital := e.capital + net_revenue
        trades := e.trades ++
          [Trade.sell timestamp execution_price e.position net_revenue fee pnl pnl_pct
            (e.capital + net_revenue) e.entry_price]
        total_trades := e.total_trades + 1
        winning_trades := if 0 < pnl then e.winning_trades + 1 else e.winning_trades
        losing_trades := if 0 < pnl then e.losing_trades else e.losing_trades + 1
        position := 0
        entry_price := 0
        position_value := 0 }
  else e

/-- `BacktestEngine.update_equity`. -/
def update_equity (e : Engine) (timestamp : ℕ) (current_price : ℚ) : Engine :=
  let position_value := if e.position > 0 then e.position * current_price else 0
  { e with equity_curve := e.equity_curve ++
      [{ timestamp := timestamp
         capital := e.capital
         position_value := position_value
         total_equity := e.capital + position_value }] }

/-- Discriminates the `'sell'` trade dicts, as `t['type'] == 'sell'` does. -/
def Trade.isSell : Trade → Bool
  | .sell _ _ _ _ _ _ _ _ _ => true
  | .buy _ _ _ _ _ _ => false

/-- Field access `t['pnl']`; only ever applied to sell trades. -/
def Trade.pnlOf : Trade → ℚ
  | .sell _ _ _ _ _ pnl _ _ _ => pnl
  | .buy _ _ _ _ _ _ => 0

/-- Field access `t['pnl_pct']`; only ever applied to sell trades. -/
def Trade.pnlPctOf : Trade → ℚ
  | .sell _ _ _ _ _ _ pnl_pct _ _ => pnl_pct
  | .buy _ _ _ _ _ _ => 0

/-- `np.mean` over an exact rational list (the code only applies it to
nonempty lists). -/
def npMean (l : List ℚ) : ℚ := l.sum / l.length

/-- The variance `np.std(l) ** 2` with the NumPy default `ddof = 0`
(population variance: denominator `n`). -/
def npVar (l : List ℚ) : ℚ := (l.map (fun x => (x - npMean l) ^ 2)).sum / l.length

/-- Python `max` over a nonempty list (`0` for `[]`, which the code guards). -/
def listMax : List ℚ → ℚ
  | [] => 0
  | x :: xs => xs.foldl max x

/-- Python `min` over a nonempty list (`0` for `[]`, which the code guards). -/
def listMin : List ℚ → ℚ
  | [] => 0
  | x :: xs => xs.foldl min x

/-- The drawdown series `(equity - running_max) / running_max * 100`, with `m`
the running maximum so far (`pandas.Series.expanding().max()`). -/
def ddList : List ℚ → ℚ → List ℚ
  | [], _ => []
  | x :: xs, m =>
    let m2 := max m x
    ((x - m2) / m2 * 100) :: ddList xs m2

/-- Value of the `profit_factor` metric: a float that may be `float('inf')`. -/
inductive PFVal where
  | fin (val : ℚ)
  | posInf
deriving DecidableEq, Repr

/-- The dict returned by `BacktestEngine.get_performance_metrics` (its
`sharpe_ratio` entry is modelled separately by `sharpe_ratio_of`, because it is
the one entry whose value involves a real square root). -/
structure Metrics where
  initial_capital : ℚ
  final_capital : ℚ
  total_return : ℚ
  total_return_pct : ℚ
  total_trades : ℕ
  winning_trades : ℕ
  losing_trades : ℕ
  win_rate : ℚ
  avg_profit : ℚ
  avg_loss : ℚ
  profit_factor : PFVal
  max_profit : ℚ
  max_loss : ℚ
  max_drawdown : ℚ
deriving Repr

/-- `BacktestEngine.get_performance_metrics`.  `none` models the
`{'error': ...}` dict returned when no trade was recorded.  The Python block
that assigns five variables under one `if sell_trades:` is rendered as one
conditional per variable with identical conditions. -/
def get_performance_metrics (e : Engine) : Option Metrics :=
  if e.trades = [] then none
  else
    let sell_trades := e.trades.filter Trade.isSell
    let profits := (sell_trades.filter fun t => 0 < t.pnlOf).map Trade.pnlOf
    let losses := (sell_trades.filter fun t => t.pnlOf < 0).map Trade.pnlOf
    let avg_profit := if sell_trades = [] then 0 else if profits = [] then 0 else npMean profits
    let avg_loss := if sell_trades = [] then 0 else if losses = [] then 0 else npMean losses
    let profit_factor :=
      if sell_trades = [] then PFVal.fin 0
      else if losses = [] then PFVal.posInf
      else PFVal.fin |profits.sum / losses.sum|
    let max_profit := if sell_trades = [] then 0 else if profits = [] then 0 else listMax profits
    let max_loss := if sell_trades = [] then 0 else if losses = [] then 0 else listMin losses
    let equity_vals := e.equity_curve.map EquityPoint.total_equity
    let max_drawdown :=
      match equity_vals with
      | [] => 0
      | x :: xs => listMin (ddList (x :: xs) x)
    some
      { initial_capital := e.initial_capital
        final_capital := e.capital
        total_return := e.capital - e.initial_capital
        total_return_pct := (e.capital - e.initial_capital) / e.initial_capital * 100
        total_trades := e.total_trades
        winning_trades := e.winning_trades
        losing_trades := e.losing_trades
        win_rate := if 0 < e.total_trades then (e.winning_trades : ℚ) / (e.total_trades : ℚ) * 100 else 0
        avg_profit := avg_profit
        avg_loss := avg_loss
        profit_factor := profit_factor
        max_profit := max_profit
        max_loss := max_loss
        max_drawdown := max_drawdown }

/-- `np.std` with the NumPy default `ddof = 0`. -/
noncomputable def npStd (l : List ℚ) : ℝ := Real.sqrt ((npVar l : ℚ) : ℝ)

/-- The `sharpe_ratio` entry of the dict built by
`BacktestEngine.get_performance_metrics`: mean of the sell trades' `pnl_pct`
divided by `np.std` of those values, guarded exactly as in the source. -/
noncomputable def sharpe_ratio_of (e : Engine) : ℝ :=
  let sell_trades := e.trades.filter Trade.isSell
  if 1 < sell_trades.length then
    let returns := sell_trades.map Trade.pnlPctOf
    if 0 < npStd returns then ((npMean returns : ℚ) : ℝ) / npStd returns else 0
  else 0

/-- Modelled from the spec's words, for comparison in claim C8 only: the
*sample* variance of a list, denominator `n - 1` (`ddof = 1`), which is what a
"sample standard deviation" squares to.  Everything else in this file is
translated from the source; this definition deliberately follows the spec. -/
def sampleVar (l : List ℚ) : ℚ := (l.map (fun x => (x - npMean l) ^ 2)).sum / ((l.length - 1 : ℕ) : ℚ)

/-- The operations a driver can perform on a `BacktestEngine`
(`get_performance_metrics` and `print_performance_report` are pure). -/
inductive EngOp where
  | trade (timestamp : ℕ) (signal : String) (price quantity : ℚ)
  | equity (timestamp : ℕ) (price : ℚ)

/-- State transition of one `BacktestEngine` method call. -/
def engStep (e : Engine) : EngOp → Engine
  | .trade ts sig p q => execute_trade e ts sig p q
  | .equity ts p => update_equity e ts p

/-! ### RiskManager (`src/risk_manager.py`) -/

/-- The risk configuration dict.  Each field is `Option`-valued so that
`config.get(key, default)` is modelled by `Option.getD` with the source's
default. -/
structure RiskConfig where
  max_position_size : Option ℚ
  max_total_exposure : Option ℚ
  stop_loss_pct : Option ℚ
  take_profit_pct : Option ℚ
  max_daily_loss : Option ℚ
  max_consecutive_losses : Option ℕ
  min_account_balance : Option ℚ
  emergency_stop : Option Bool
deriving Repr

/-- `config.get('max_position_size', 0.1)`. -/
def RiskConfig.getMaxPositionSize (c : RiskConfig) : ℚ := c.max_position_size.getD 0.1

/-- `config.get('max_total_exposure', 0.5)`. -/
def RiskConfig.getMaxTotalExposure (c : RiskConfig) : ℚ := c.max_total_exposure.getD 0.5

/-- `config.get('stop_loss_pct', 0.02)`. -/
def RiskConfig.getStopLossPct (c : RiskConfig) : ℚ := c.stop_loss_pct.getD 0.02

/-- `config.get('take_profit_pct', 0.04)`. -/
def RiskConfig.getTakeProfitPct (c : RiskConfig) : ℚ := c.take_profit_pct.getD 0.04

/-- `config.get('max_daily_loss', 0.05)`. -/
def RiskConfig.getMaxDailyLoss (c : RiskConfig) : ℚ := c.max_daily_loss.getD 0.05

/-- `config.get('max_consecutive_losses', 3)`. -/
def RiskConfig.getMaxConsecutiveLosses (c : RiskConfig) : ℕ := c.max_consecutive_losses.getD 3

/-- `config.get('min_account_balance', 0)`. -/
def RiskConfig.getMinAccountBalance (c : RiskConfig) : ℚ := c.min_account_balance.getD 0

/-- `config.get('emergency_stop', False)`. -/
def RiskConfig.getEmergencyStop (c : RiskConfig) : Bool := c.emergency_stop.getD false

/-- One value of the `open_positions` dict (`RiskManager.add_position`);
the `timestamp` entry is never read back and is omitted. -/
structure PositionRisk where
  side : String
  quantity : ℚ
  entry_price : ℚ
  value : ℚ
  stop_loss : ℚ
  take_profit : ℚ
deriving Repr

/-- The mutable state of `RiskManager`.  `max_consecutive_losses` is read from
the config once in `__init__` and stored.  Dates are abstract day numbers
ordered like calendar dates. -/
structure RiskState where
  config : RiskConfig
  initial_balance : ℚ
  current_balance : ℚ
  equity : ℚ
  daily_start_balance : ℚ
  daily_pnl : ℚ
  last_reset_date : ℕ
  consecutive_losses : ℕ
  max_consecutive_losses : ℕ
  circuit_breaker_active : Bool
  circuit_breaker_reason : Option String
  open_positions : List (String × PositionRisk)
deriving Repr

/-- `RiskManager.__init__`; `today` is `datetime.now().date()` at construction
time. -/
def mkRiskManager (config : RiskConfig) (today : ℕ) : RiskState :=
  { config := config
    initial_balance := 0
    current_balance := 0
    equity := 0
    daily_start_balance := 0
    daily_pnl := 0
    last_reset_date := today
    consecutive_losses := 0
    max_consecutive_losses := config.getMaxConsecutiveLosses
    circuit_breaker_active := false
    circuit_breaker_reason := none
    open_positions := [] }

/-- `RiskManager.initialize` (the identifier `initialize` is a Lean command
keyword, hence the rename). -/
def initBalance (s : RiskState) (balance : ℚ) : RiskState :=
  { s with
      initial_balance := balance
      current_balance := balance
      equity := balance
      daily_start_balance := balance }

/-- `RiskManager._activate_circuit_breaker`. -/
def activate_circuit_breaker (s : RiskState) (reason : String) : RiskState :=
  { s with circuit_breaker_active := true, circuit_breaker_reason := some reason }

/-- `RiskManager.reset_circuit_breaker`. -/
def reset_circuit_breaker (s : RiskState) : RiskState :=
  if s.circuit_breaker_active then
    { s with circuit_breaker_active := false, circuit_breaker_reason := none }
  else s

/-- `RiskManager._check_daily_reset`; `today` is `datetime.now().date()` at
call time.  The source tests `'daily' in self.circuit_breaker_reason.lower()`;
with `reason = None` Python would raise there, but that state is unreachable
(theorem `breaker_reason_invariant`), and `pyStr` renders `None` as `"None"`,
which gives the same `false` answer. -/
def check_daily_reset (s : RiskState) (today : ℕ) : RiskState :=
  if s.last_reset_date < today then
    let s1 := { s with
      daily_start_balance := s.current_balance
      daily_pnl := 0
      last_reset_date := today }
    if s1.circuit_breaker_active && pyIn "daily" (strLower (pyStr s1.circuit_breaker_reason)) then
      reset_circuit_breaker s1
    else s1
  else s

/-- `RiskManager.update_balance`. -/
def update_balance (s : RiskState) (today : ℕ) (balance : ℚ) (equity : Option ℚ) : RiskState :=
  let s1 := { s with current_balance := balance, equity := equity.getD balance }
  check_daily_reset s1 today

/-- `RiskManager._calculate_total_exposure`. -/
def total_exposure (s : RiskState) : ℚ := (s.open_positions.map fun kv => kv.2.value).sum

/-- `RiskManager.calculate_position_size` (pure: the method never writes
state). -/
def calculate_position_size (s : RiskState) (price signal_strength : ℚ) : ℚ × ℚ :=
  if s.circuit_breaker_active then (0, 0)
  else if s.config.getEmergencyStop then (0, 0)
  else
    let available_balance := s.current_balance
    if available_balance ≤ s.config.getMinAccountBalance then (0, 0)
    else
      let max_position_amount := available_balance * s.config.getMaxPositionSize
      let position_amount := max_position_amount * signal_strength
      if s.config.getMaxTotalExposure * s.equity ≤ total_exposure s then (0, 0)
      else (position_amount, position_amount / price)

/-- `RiskManager.calculate_stop_loss`. -/
def calculate_stop_loss (s : RiskState) (entry_price : ℚ) (side : String) : ℚ :=
  if side = "long" then entry_price * (1 - s.config.getStopLossPct)
  else entry_price * (1 + s.config.getStopLossPct)

/-- `RiskManager.calculate_take_profit`. -/
def calculate_take_profit (s : RiskState) (entry_price : ℚ) (side : String) : ℚ :=
  if side = "long" then entry_price * (1 + s.config.getTakeProfitPct)
  else entry_price * (1 - s.config.getTakeProfitPct)

/-- The daily loss ratio computed inside `RiskManager.check_trade_allowed` and
`get_risk_report`. -/
def dailyLossPct (s : RiskState) : ℚ :=
  if 0 < s.daily_start_balance then
    (s.daily_start_balance - s.current_balance) / s.daily_start_balance
  else 0

/-- `RiskManager.check_trade_allowed`: returns the `(allowed, reason)` pair and
the successor state (the daily-loss branch activates the circuit breaker as a
side effect). -/
def check_trade_allowed (s : RiskState) : (Bool × Option String) × RiskState :=
  if s.circuit_breaker_active then
    ((false, some ("熔斷啟動: " ++ pyStr s.circuit_breaker_reason)), s)
  else if s.config.getEmergencyStop then
    ((false, some "緊急停止已啟動"), s)
  else if s.current_balance ≤ s.config.getMinAccountBalance then
    ((false, some ("餘額不足: $" ++ format2f s.current_balance)), s)
  else if s.config.getMaxDailyLoss ≤ dailyLossPct s then
    let reason := "達到每日虧損限制: " ++ format2f (dailyLossPct s * 100) ++ "%"
    ((false, some reason), activate_circuit_breaker s reason)
  else ((true, none), s)

/-- `RiskManager.record_trade_result`. -/
def record_trade_result (s : RiskState) (pnl : ℚ) (is_win : Bool) : RiskState :=
  let s1 := { s with daily_pnl := s.daily_pnl + pnl }
  if is_win then { s1 with consecutive_losses := 0 }
  else
    let s2 := { s1 with consecutive_losses := s1.consecutive_losses + 1 }
    if s2.max_consecutive_losses ≤ s2.consecutive_losses then
      activate_circuit_breaker s2 ("連續虧損 " ++ toString s2.consecutive_losses ++ " 次")
    else s2

/-- Python dict assignment `open_positions[symbol] = v`. -/
def setPos (l : List (String × PositionRisk)) (k : String) (v : PositionRisk) :
    List (String × PositionRisk) :=
  if l.any fun kv => kv.1 == k then l.map fun kv => if kv.1 == k then (k, v) else kv
  else l ++ [(k, v)]

/-- `RiskManager.add_position`. -/
def add_position (s : RiskState) (symbol side : String) (quantity entry_price : ℚ) : RiskState :=
  let pos : PositionRisk :=
    { side := side
      quantity := quantity
      entry_price := entry_price
      value := quantity * entry_price
      stop_loss := calculate_stop_loss s entry_price side
      take_profit := calculate_take_profit s entry_price side }
  { s with open_positions := setPos s.open_positions symbol pos }

/-- `RiskManager.remove_position`. -/
def remove_position (s : RiskState) (symbol : String) : RiskState :=
  { s with open_positions := s.open_positions.filter fun kv => !(kv.1 == symbol) }

/-- The operations a driver can perform on a `RiskManager`
(`calculate_position_size` and the report getters never write state, so their
step is the identity; `update_bal` and `mkRiskManager` carry the ambient
calendar date of the call). -/
inductive RMOp where
  | init_balance (balance : ℚ)
  | update_bal (today : ℕ) (balance : ℚ) (equity : Option ℚ)
  | position_size (price signal_strength : ℚ)
  | trade_allowed
  | trade_result (pnl : ℚ) (is_win : Bool)
  | reset_breaker
  | add_pos (symbol side : String) (quantity entry_price : ℚ)
  | remove_pos (symbol : String)

/-- State transition of one `RiskManager` method call. -/
def rmStep (s : RiskState) : RMOp → RiskState
  | .init_balance b => initBalance s b
  | .update_bal d b q => update_balance s d b q
  | .position_size _ _ => s
  | .trade_allowed => (check_trade_allowed s).2
  | .trade_result pnl w => record_trade_result s pnl w
  | .reset_breaker => reset_circuit_breaker s
  | .add_pos sym side q p => add_position s sym side q p
  | .remove_pos sym => remove_position s sym

/-! ### Concrete replays used as witnesses and counterexamples

A fee-free engine (`commission = slippage = 0`) makes the interesting corner
reachable: a closing trade with `pnl` exactly `0`. -/

/-- `BacktestEngine(initial_capital=1000, commission=0, slippage=0)`. -/
def engZero : Engine := mkEngine 1000 0 0

/-- After `execute_trade(0, 'long', 10, 1)`: open 1 unit at 10. -/
def engA : Engine := execute_trade engZero 0 "long" 10 1

/-- After `execute_trade(1, 'close', 10, 0)`: a sell with `pnl = 0`. -/
def engB : Engine := execute_trade engA 1 "close" 10 0

/-- After `execute_trade(2, 'long', 50, 1)`: open 1 unit at 50. -/
def engC : Engine := execute_trade engB 2 "long" 50 1

/-- After `execute_trade(3, 'close', 51, 0)`: a sell with `pnl = 1`,
`pnl_pct = 2`. -/
def engD : Engine := execute_trade engC 3 "close" 51 0

/-- The metrics dict of `engB`, spelled out. -/
def engB_metrics : Metrics :=
  { initial_capital := 1000
    final_capital := 1000
    total_return := 0
    total_return_pct := 0
    total_trades := 1
    winning_trades := 0
    losing_trades := 1
    win_rate := 0
    avg_profit := 0
    avg_loss := 0
    profit_factor := PFVal.posInf
    max_profit := 0
    max_loss := 0
    max_drawdown := 0 }

/-! ### Concrete risk-manager replays -/

/-- An empty config dict: every option takes its source default. -/
def cfg0 : RiskConfig :=
  { max_position_size := none
    max_total_exposure := none
    stop_loss_pct := none
    take_profit_pct := none
    max_daily_loss := none
    max_consecutive_losses := none
    min_account_balance := none
    emergency_stop := none }

/-- `RiskManager(config)` constructed on day 0. -/
def rmZero : RiskState := mkRiskManager cfg0 0

/-- After `initialize(1000)`. -/
def rmInit : RiskState := initBalance rmZero 1000

/-- After `update_balance(940)` on day 0: a 6% intraday loss. -/
def rmDown : RiskState := update_balance rmInit 0 940 none

/-- After `check_trade_allowed()`: the daily-loss rule trips the breaker. -/
def rmTripped : RiskState := (check_trade_allowed rmDown).2

/-- After `update_balance(940)` on day 1: the rollover the claim says clears a
daily-loss trip. -/
def rmNextDay : RiskState := update_balance rmTripped 1 940 none

/-- Three straight losing `record_trade_result` calls from `rmInit`. -/
def rmLoss1 : RiskState := record_trade_result rmInit (-10) false

def rmLoss2 : RiskState := record_trade_result rmLoss1 (-10) false

def rmLoss3 : RiskState := record_trade_result rmLoss2 (-10) false

/-- Day-1 rollover applied to the consecutive-loss trip. -/
def rmLossNextDay : RiskState := update_balance rmLoss3 1 970 none

/-! ### String-literal facts used to evaluate the embedded conditionals -/

theorem str_close_ne_long : ("close" = "long") = False := eq_false (by decide)

theorem str_long_eq_long : ("long" = "long") = True := eq_true rfl

theorem str_close_eq_close : ("close" = "close") = True := eq_true rfl

theorem str_hold_ne_long : ("hold" = "long") = False := eq_false (by decide)

theorem str_hold_ne_close : ("hold" = "close") = False := eq_false (by decide)

theorem str_long_ne_close : ("long" = "close") = False := eq_false (by decide)

theorem engA_eval :
    engA = { engZero with
      capital := 990
      position := 1
      position_value := 10
      entry_price := 10
      trades := [Trade.buy 0 10 1 10 0 990] } := by
  norm_num [engA, engZero, mkEngine, execute_trade, str_long_eq_long]

theorem engB_eval :
    engB = { engZero with
      capital := 1000
      trades := [Trade.buy 0 10 1 10 0 990, Trade.sell 1 10 1 10 0 0 0 1000 10]
      total_trades := 1
      losing_trades := 1 } := by
  norm_num [engB, engA_eval, engZero, mkEngine, execute_trade, str_close_ne_long,
    str_close_eq_close]

theorem engC_eval :
    engC = { engZero with
      capital := 950
      position := 1
      position_value := 50
      entry_price := 50
      trades := [Trade.buy 0 10 1 10 0 990, Trade.sell 1 10 1 10 0 0 0 1000 10,
        Trade.buy 2 50 1 50 0 950]
      total_trades := 1
      losing_trades := 1 } := by
  norm_num [engC, engB_eval, engZero, mkEngine, execute_trade, str_long_eq_long]

theorem engD_eval :
    engD = { engZero with
      capital := 1001
      trades := [Trade.buy 0 10 1 10 0 990, Trade.sell 1 10 1 10 0 0 0 1000 10,
        Trade.buy 2 50 1 50 0 950, Trade.sell 3 51 1 51 0 1 2 1001 50]
      total_trades := 2
      winning_trades := 1
      losing_trades := 1 } := by
  norm_num [engD, engC_eval, engZero, mkEngine, execute_trade, str_close_ne_long,
    str_close_eq_close]

/-! ### Branch evaluations of `execute_trade` -/

/-- The sell branch of `execute_trade`, with every `let` of the source spelled
out. -/
theorem execute_close_eval (e : Engine) (ts : ℕ) (p q : ℚ) (hpos : e.position > 0) :
    execute_trade e ts "close" p q =
      { e with
          capital := e.capital +
            (p * (1 - e.slippage) * e.position - p * (1 - e.slippage) * e.position * e.commission)
          trades := e.trades ++
            [Trade.sell ts (p * (1 - e.slippage)) e.position
              (p * (1 - e.slippage) * e.position - p * (1 - e.slippage) * e.position * e.commission)
              (p * (1 - e.slippage) * e.position * e.commission)
              (p * (1 - e.slippage) * e.position - p * (1 - e.slippage) * e.position * e.commission -
                (e.entry_price * e.position + e.entry_price * e.position * e.commission))
              ((p * (1 - e.slippage) * e.position - p * (1 - e.slippage) * e.position * e.commission -
                (e.entry_price * e.position + e.entry_price * e.position * e.commission)) /
                (e.entry_price * e.position) * 100)
              (e.capital +
                (p * (1 - e.slippage) * e.position - p * (1 - e.slippage) * e.position * e.commission))
              e.entry_price]
          total_trades := e.total_trades + 1
          winning_trades :=
            if 0 < p * (1 - e.slippage) * e.position - p * (1 - e.slippage) * e.position * e.commission -
                (e.entry_price * e.position + e.entry_price * e.position * e.commission) then
              e.winning_trades + 1
            else e.winning_trades
          losing_trades :=
            if 0 < p * (1 - e.slippage) * e.position - p * (1 - e.slippage) * e.position * e.commission -
                (e.entry_price * e.position + e.entry_price * e.position * e.commission) then
              e.losing_trades
            else e.losing_trades + 1
          position := 0
          entry_price := 0
          position_value := 0 } := by
  simp only [execute_trade, str_close_ne_long, str_close_eq_close, if_true, if_false,
    true_and, false_and]
  rw [if_pos hpos]

/-- The buy branch of `execute_trade`, with every `let` of the source spelled
out. -/
theorem execute_long_eval (e : Engine) (ts : ℕ) (p q : ℚ) (hflat : e.position = 0) :
    execute_trade e ts "long" p q =
      if p * (1 + e.slippage) * q + p * (1 + e.slippage) * q * e.commission ≤ e.capital then
        { e with
            position := q
            entry_price := p * (1 + e.slippage)
            capital := e.capital -
              (p * (1 + e.slippage) * q + p * (1 + e.slippage) * q * e.commission)
            position_value := p * (1 + e.slippage) * q
            trades := e.trades ++
              [Trade.buy ts (p * (1 + e.slippage)) q
                (p * (1 + e.slippage) * q + p * (1 + e.slippage) * q * e.commission)
                (p * (1 + e.slippage) * q * e.commission)
                (e.capital - (p * (1 + e.slippage) * q + p * (1 + e.slippage) * q * e.commission))] }
      else e := by
  simp only [execute_trade, str_long_eq_long, str_long_ne_close, if_true, if_false,
    true_and, false_and]
  rw [if_pos hflat]

/-- C3: closing an open position of quantity `q > 0` entered at price `e` uses
`exit_execution_price = p·(1 − slippage)`, realises
`net_revenue = exit_execution_price·q·(1 − commission)`, records
`pnl = net_revenue − (e·q + e·q·commission)` and `pnl_pct = pnl/(e·q)·100`,
credits cash by exactly `net_revenue`, clears the position to quantity `0`, and
appends exactly one sell trade carrying these values. -/
theorem close_trade_spec (e : Engine) (ts : ℕ) (p q : ℚ) (hpos : e.position > 0) :
    (execute_trade e ts "close" p q).capital =
        e.capital + p * (1 - e.slippage) * e.position * (1 - e.commission) ∧
    (execute_trade e ts "close" p q).position = 0 ∧
    (execute_trade e ts "close" p q).trades =
      e.trades ++
        [Trade.sell ts (p * (1 - e.slippage)) e.position
          (p * (1 - e.slippage) * e.position * (1 - e.commission))
          (p * (1 - e.slippage) * e.position * e.commission)
          (p * (1 - e.slippage) * e.position * (1 - e.commission) -
            (e.entry_price * e.position + e.entry_price * e.position * e.commission))
          ((p * (1 - e.slippage) * e.position * (1 - e.commission) -
            (e.entry_price * e.position + e.entry_price * e.position * e.commission)) /
            (e.entry_price * e.position) * 100)
          (e.capital + p * (1 - e.slippage) * e.position * (1 - e.commission))
          e.entry_price] := by
  rw [execute_close_eval e ts p q hpos]
  refine ⟨by ring, rfl, ?_⟩
  simp only [List.append_cancel_left_eq, List.cons.injEq, and_true, Trade.sell.injEq]
  repeat' apply And.intro
  all_goals first
  | trivial
  | ring

/-- C3 witness: closing the open position of `engC` (entry 50, quantity 1) at
reference price 51 with zero fees pays out 51 and books `pnl = 1`,
`pnl_pct = 2`. -/
theorem close_trade_spec_witness :
    engC.position > 0 ∧
    (execute_trade engC 3 "close" 51 0).capital =
      engC.capital + 51 * (1 - engC.slippage) * engC.position * (1 - engC.commission) :=
  ⟨by norm_num [engC_eval, engZero, mkEngine],
    (close_trade_spec engC 3 51 0 (by norm_num [engC_eval, engZero, mkEngine])).1⟩

/-- C4: with no open position, a `long` signal at reference price `p` for
quantity `q` costs `total_cost = q·p·(1 + slippage)·(1 + commission)`; exactly
when `total_cost ≤ cash` it debits cash by `total_cost`, opens the position and
appends one buy trade, and otherwise it changes nothing and raises no error. -/
theorem long_trade_spec (e : Engine) (ts : ℕ) (p q : ℚ) (hflat : e.position = 0) :
    (q * p * (1 + e.slippage) * (1 + e.commission) ≤ e.capital →
      (execute_trade e ts "long" p q).capital =
          e.capital - q * p * (1 + e.slippage) * (1 + e.commission) ∧
      (execute_trade e ts "long" p q).position = q ∧
      (execute_trade e ts "long" p q).entry_price = p * (1 + e.slippage) ∧
      (execute_trade e ts "long" p q).trades =
        e.trades ++
          [Trade.buy ts (p * (1 + e.slippage)) q
            (q * p * (1 + e.slippage) * (1 + e.commission))
            (p * (1 + e.slippage) * q * e.commission)
            (e.capital - q * p * (1 + e.slippage) * (1 + e.commission))]) ∧
    (e.capital < q * p * (1 + e.slippage) * (1 + e.commission) →
      execute_trade e ts "long" p q = e) := by
  have harith : p * (1 + e.slippage) * q + p * (1 + e.slippage) * q * e.commission =
      q * p * (1 + e.slippage) * (1 + e.commission) := by ring
  rw [execute_long_eval e ts p q hflat, harith]
  constructor
  · intro hle
    rw [if_pos hle]
    exact ⟨rfl, rfl, rfl, rfl⟩
  · intro hlt
    rw [if_neg (not_le.mpr hlt)]

/-- C4 witness: from the fresh engine, buying 1 unit at 10 with zero fees costs
10 and succeeds, while buying 1 unit at 2000 would cost more than the 1000 of
cash and leaves the engine untouched. -/
theorem long_trade_spec_witness :
    ((1 : ℚ) * 10 * (1 + engZero.slippage) * (1 + engZero.commission) ≤ engZero.capital ∧
      (execute_trade engZero 0 "long" 10 1).position = 1) ∧
    (engZero.capital < (1 : ℚ) * 2000 * (1 + engZero.slippage) * (1 + engZero.commission) ∧
      execute_trade engZero 0 "long" 2000 1 = engZero) :=
  ⟨⟨by norm_num [engZero, mkEngine],
      ((long_trade_spec engZero 0 10 1 (by norm_num [engZero, mkEngine])).1
        (by norm_num [engZero, mkEngine])).2.1⟩,
    ⟨by norm_num [engZero, mkEngine],
      (long_trade_spec engZero 0 2000 1 (by norm_num [engZero, mkEngine])).2
        (by norm_num [engZero, mkEngine])⟩⟩

/-- C5 counterexample: the closing trade of `engB` has `pnl = 0`, yet
`losing_trades` goes from 0 to 1 — the claim says a zero-pnl closing trade
increments neither counter. -/
theorem zero_pnl_counted_as_loss :
    engB.trades = engA.trades ++ [Trade.sell 1 10 1 10 0 0 0 1000 10] ∧
    Trade.pnlOf (Trade.sell 1 10 1 10 0 0 0 1000 10) = 0 ∧
    engA.winning_trades = 0 ∧ engA.losing_trades = 0 ∧
    engB.winning_trades = 0 ∧ engB.losing_trades = 1 := by
  refine ⟨?_, rfl, ?_, ?_, ?_, ?_⟩ <;>
    norm_num [engA_eval, engB_eval, engZero, mkEngine, Trade.pnlOf]

/-- C5 as amended: a closing trade increments `total_trades` by one and exactly
one outcome counter; `winning_trades` goes up exactly when `pnl > 0`, and
`losing_trades` goes up exactly when `pnl ≤ 0` (the source's `else` arm), so a
zero-pnl close is counted as a loss. -/
theorem close_counters_spec (e : Engine) (ts : ℕ) (p q : ℚ) (hpos : e.position > 0) :
    (execute_trade e ts "close" p q).total_trades = e.total_trades + 1 ∧
    (0 < p * (1 - e.slippage) * e.position * (1 - e.commission) -
        (e.entry_price * e.position + e.entry_price * e.position * e.commission) →
      (execute_trade e ts "close" p q).winning_trades = e.winning_trades + 1 ∧
      (execute_trade e ts "close" p q).losing_trades = e.losing_trades) ∧
    (p * (1 - e.slippage) * e.position * (1 - e.commission) -
        (e.entry_price * e.position + e.entry_price * e.position * e.commission) ≤ 0 →
      (execute_trade e ts "close" p q).winning_trades = e.winning_trades ∧
      (execute_trade e ts "close" p q).losing_trades = e.losing_trades + 1) := by
  have harith : p * (1 - e.slippage) * e.position - p * (1 - e.slippage) * e.position * e.commission -
      (e.entry_price * e.position + e.entry_price * e.position * e.commission) =
      p * (1 - e.slippage) * e.position * (1 - e.commission) -
        (e.entry_price * e.position + e.entry_price * e.position * e.commission) := by ring
  rw [execute_close_eval e ts p q hpos]
  refine ⟨rfl, ?_, ?_⟩
  · intro hwin
    constructor
    · show (if 0 < _ then e.winning_trades + 1 else e.winning_trades) = e.winning_trades + 1
      rw [if_pos (by rw [harith]; exact hwin)]
    · show (if 0 < _ then e.losing_trades else e.losing_trades + 1) = e.losing_trades
      rw [if_pos (by rw [harith]; exact hwin)]
  · intro hlose
    constructor
    · show (if 0 < _ then e.winning_trades + 1 else e.winning_trades) = e.winning_trades
      rw [if_neg (by rw [harith]; exact not_lt.mpr hlose)]
    · show (if 0 < _ then e.losing_trades else e.losing_trades + 1) = e.losing_trades + 1
      rw [if_neg (by rw [harith]; exact not_lt.mpr hlose)]

/-- C5 witness: the profitable close of `engC` (pnl `1 > 0`) bumps the winning
counter, and the break-even close of `engA` (pnl `0 ≤ 0`) bumps the losing
counter. -/
theorem close_counters_spec_witness :
    ((0 : ℚ) < 51 * (1 - engC.slippage) * engC.position * (1 - engC.commission) -
        (engC.entry_price * engC.position + engC.entry_price * engC.position * engC.commission) ∧
      (execute_trade engC 3 "close" 51 0).winning_trades = engC.winning_trades + 1) ∧
    ((10 : ℚ) * (1 - engA.slippage) * engA.position * (1 - engA.commission) -
        (engA.entry_price * engA.position + engA.entry_price * engA.position * engA.commission) ≤ 0 ∧
      (execute_trade engA 1 "close" 10 0).losing_trades = engA.losing_trades + 1) :=
  ⟨⟨by norm_num [engC_eval, engZero, mkEngine],
      ((close_counters_spec engC 3 51 0 (by norm_num [engC_eval, engZero, mkEngine])).2.1
        (by norm_num [engC_eval, engZero, mkEngine])).1⟩,
    ⟨by norm_num [engA_eval, engZero, mkEngine],
      ((close_counters_spec engA 1 10 0 (by norm_num [engA_eval, engZero, mkEngine])).2.2
        (by norm_num [engA_eval, engZero, mkEngine])).2⟩⟩

/-- C7: a `long` signal with a position already open, a `close` signal while
flat, and any signal other than `long`/`close` (such as `hold`) leave the whole
engine state — cash, position, entry price, trades, counters — unchanged. -/
theorem noop_signals (e : Engine) (ts : ℕ) (signal : String) (p q : ℚ) :
    (signal = "long" → e.position ≠ 0 → execute_trade e ts signal p q = e) ∧
    (signal = "close" → e.position = 0 → execute_trade e ts signal p q = e) ∧
    (signal ≠ "long" → signal ≠ "close" → execute_trade e ts signal p q = e) := by
  refine ⟨?_, ?_, ?_⟩ <;> intro h1 h2
  · subst h1
    simp only [execute_trade, str_long_eq_long, str_long_ne_close, if_true, if_false,
      true_and, false_and]
    rw [if_neg h2]
  · subst h1
    simp only [execute_trade, str_close_ne_long, str_close_eq_close, if_true, if_false,
      true_and, false_and]
    rw [if_neg (by rw [h2]; exact lt_irrefl 0)]
  · simp only [execute_trade]
    rw [if_neg (fun hc => h1 hc.1), if_neg (fun hc => h2 hc.1)]

/-- C7 witness: `hold` on the fresh engine, `long` while `engA` already holds a
position, and `close` while `engB` is flat are all no-ops. -/
theorem noop_signals_witness :
    (("hold" : String) ≠ "long" ∧ ("hold" : String) ≠ "close" ∧
      execute_trade engZero 0 "hold" 5 1 = engZero) ∧
    (engA.position ≠ 0 ∧ execute_trade engA 2 "long" 5 1 = engA) ∧
    (engB.position = 0 ∧ execute_trade engB 2 "close" 5 1 = engB) :=
  ⟨⟨by decide, by decide,
      (noop_signals engZero 0 "hold" 5 1).2.2 (by decide) (by decide)⟩,
    ⟨by norm_num [engA_eval, engZero, mkEngine],
      (noop_signals engA 2 "long" 5 1).1 rfl (by norm_num [engA_eval, engZero, mkEngine])⟩,
    ⟨by norm_num [engB_eval, engZero, mkEngine],
      (noop_signals engB 2 "close" 5 1).2.1 rfl (by norm_num [engB_eval, engZero, mkEngine])⟩⟩

/-- One engine step either books a closing trade — `total_trades` up by one and
exactly one outcome counter up by one — or leaves all three counters
unchanged. -/
theorem engStep_counters (e : Engine) (op : EngOp) :
    ((engStep e op).total_trades = e.total_trades + 1 ∧
      (((engStep e op).winning_trades = e.winning_trades + 1 ∧
          (engStep e op).losing_trades = e.losing_trades) ∨
        ((engStep e op).winning_trades = e.winning_trades ∧
          (engStep e op).losing_trades = e.losing_trades + 1))) ∨
    ((engStep e op).total_trades = e.total_trades ∧
      (engStep e op).winning_trades = e.winning_trades ∧
      (engStep e op).losing_trades = e.losing_trades) := by
  cases op with
  | equity ts pr => right; exact ⟨rfl, rfl, rfl⟩
  | trade ts sig pr q =>
    show _ ∨ ((execute_trade e ts sig pr q).total_trades = _ ∧ _ ∧ _)
    simp only [engStep, execute_trade]
    split_ifs <;> simp

/-- Preservation of `total = winning + losing` along any replay. -/
theorem engFold_inv (ops : List EngOp) (e : Engine)
    (h : e.total_trades = e.winning_trades + e.losing_trades) :
    (ops.foldl engStep e).total_trades =
      (ops.foldl engStep e).winning_trades + (ops.foldl engStep e).losing_trades := by
  induction ops generalizing e with
  | nil => exact h
  | cons op rest ih =>
    refine ih (engStep e op) ?_
    rcases engStep_counters e op with ⟨h1, ⟨h2, h3⟩ | ⟨h2, h3⟩⟩ | ⟨h1, h2, h3⟩ <;> omega

/-- C9: from a fresh engine, `total_trades = winning_trades + losing_trades`
holds after every sequence of operations; each step either books one closing
trade (total and exactly one outcome counter up by one) or leaves all three
counters unchanged. -/
theorem counters_invariant :
    (∀ (e : Engine) (op : EngOp),
      ((engStep e op).total_trades = e.total_trades + 1 ∧
        (((engStep e op).winning_trades = e.winning_trades + 1 ∧
            (engStep e op).losing_trades = e.losing_trades) ∨
          ((engStep e op).winning_trades = e.winning_trades ∧
            (engStep e op).losing_trades = e.losing_trades + 1))) ∨
      ((engStep e op).total_trades = e.total_trades ∧
        (engStep e op).winning_trades = e.winning_trades ∧
        (engStep e op).losing_trades = e.losing_trades)) ∧
    (∀ (initial_capital commission slippage : ℚ) (ops : List EngOp),
      (ops.foldl engStep (mkEngine initial_capital commission slippage)).total_trades =
        (ops.foldl engStep (mkEngine initial_capital commission slippage)).winning_trades +
          (ops.foldl engStep (mkEngine initial_capital commission slippage)).losing_trades) :=
  ⟨engStep_counters, fun initial_capital commission slippage ops =>
    engFold_inv ops (mkEngine initial_capital commission slippage) rfl⟩

/-- C2 counterexample: `engB` has exactly one closing trade and its `pnl` is
`0`, so there are neither winning nor losing closing trades; the claim demands
`profit_factor = 0`, but the code reports `+infinity` (the `if losses` guard
alone selects the infinity arm). -/
theorem profit_factor_zero_pnl_counterexample :
    ((engB.trades.filter Trade.isSell).filter fun t => 0 < t.pnlOf) = [] ∧
    ((engB.trades.filter Trade.isSell).filter fun t => t.pnlOf < 0) = [] ∧
    (get_performance_metrics engB).map Metrics.profit_factor = some PFVal.posInf ∧
    PFVal.posInf ≠ PFVal.fin 0 := by
  refine ⟨?_, ?_, ?_, by decide⟩ <;>
    norm_num [engB_eval, engZero, mkEngine, get_performance_metrics, Trade.isSell,
      Trade.pnlOf, List.filter]
  exact ⟨_, ⟨List.cons_ne_nil _ _, rfl⟩, rfl⟩

/-- C2 as amended: whenever metrics are reported (at least one recorded trade),
`profit_factor` is `|sum positive pnl / sum negative pnl|` when some closing
trade lost, `+infinity` when at least one closing trade exists and none lost
(regardless of whether any won), and `0` when there is no closing trade at all;
the empty-loss denominator never raises. -/
theorem profit_factor_spec (e : Engine) (m : Metrics)
    (hm : get_performance_metrics e = some m) :
    (((e.trades.filter Trade.isSell).filter fun t => t.pnlOf < 0) ≠ [] →
      m.profit_factor = PFVal.fin
        |(((e.trades.filter Trade.isSell).filter fun t => 0 < t.pnlOf).map Trade.pnlOf).sum /
          (((e.trades.filter Trade.isSell).filter fun t => t.pnlOf < 0).map Trade.pnlOf).sum|) ∧
    (e.trades.filter Trade.isSell ≠ [] →
      ((e.trades.filter Trade.isSell).filter fun t => t.pnlOf < 0) = [] →
      m.profit_factor = PFVal.posInf) ∧
    (e.trades.filter Trade.isSell = [] → m.profit_factor = PFVal.fin 0) := by
  by_cases ht : e.trades = []
  · rw [get_performance_metrics, if_pos ht] at hm
    exact absurd hm (by simp)
  · rw [get_performance_metrics, if_neg ht] at hm
    have hm2 := Option.some.inj hm
    subst hm2
    refine ⟨?_, ?_, ?_⟩
    · intro hl
      have hs : e.trades.filter Trade.isSell ≠ [] := by
        intro hnil
        rw [hnil] at hl
        exact hl rfl
      have hl2 : (((e.trades.filter Trade.isSell).filter fun t => t.pnlOf < 0).map
          Trade.pnlOf) ≠ [] := by
        simpa using hl
      show (if _ = _ then _ else if _ = _ then _ else _) = _
      rw [if_neg hs, if_neg hl2]
    · intro hs hl
      show (if _ = _ then _ else if _ = _ then _ else _) = _
      rw [if_neg hs, if_pos (by rw [hl]; rfl)]
    · intro hs
      show (if _ = _ then _ else if _ = _ then _ else _) = _
      rw [if_pos hs]

theorem engB_metrics_eval : get_performance_metrics engB = some engB_metrics := by
  norm_num [engB_eval, engZero, mkEngine, get_performance_metrics, Trade.isSell,
    Trade.pnlOf, List.filter, engB_metrics]
  simp

/-- C2 witness: `engB` has one closing trade, none of them losing, and the
amended statement yields `profit_factor = +infinity` there. -/
theorem profit_factor_spec_witness :
    (engB.trades.filter Trade.isSell ≠ [] ∧
      ((engB.trades.filter Trade.isSell).filter fun t => t.pnlOf < 0) = []) ∧
    engB_metrics.profit_factor = PFVal.posInf :=
  ⟨⟨by norm_num [engB_eval, engZero, mkEngine, Trade.isSell, List.filter],
      by norm_num [engB_eval, engZero, mkEngine, Trade.isSell, Trade.pnlOf, List.filter]⟩,
    (profit_factor_spec engB engB_metrics engB_metrics_eval).2.1
      (by norm_num [engB_eval, engZero, mkEngine, Trade.isSell, List.filter])
      (by norm_num [engB_eval, engZero, mkEngine, Trade.isSell, Trade.pnlOf, List.filter])⟩

/-! ### Sharpe ratio (claim C8) -/

theorem engD_sell_filter :
    engD.trades.filter Trade.isSell =
      [Trade.sell 1 10 1 10 0 0 0 1000 10, Trade.sell 3 51 1 51 0 1 2 1001 50] := by
  norm_num [engD_eval, engZero, mkEngine, Trade.isSell, List.filter]

theorem engD_returns : (engD.trades.filter Trade.isSell).map Trade.pnlPctOf = [0, 2] := by
  rw [engD_sell_filter]
  rfl

theorem npMean_02 : npMean [0, 2] = 1 := by
  norm_num [npMean]

theorem npVar_02 : npVar [0, 2] = 1 := by
  norm_num [npVar, npMean]

theorem sampleVar_02 : sampleVar [0, 2] = 2 := by
  norm_num [sampleVar, npMean]

theorem sharpe_engD : sharpe_ratio_of engD = 1 := by
  simp only [sharpe_ratio_of, engD_sell_filter]
  norm_num [npStd, Trade.pnlPctOf, show npVar [0, 2] = 1 from npVar_02,
    show npMean [0, 2] = 1 from npMean_02]

/-- C8 counterexample: `engD` closes two trades with `pnl_pct` values `0` and
`2`.  The code divides by the *population* standard deviation (`np.std`,
`ddof = 0`), giving `1/1 = 1`; the claim's *sample* standard deviation would
give `1/sqrt 2 ≠ 1`. -/
theorem sharpe_sample_std_counterexample :
    sharpe_ratio_of engD ≠
      ((npMean ((engD.trades.filter Trade.isSell).map Trade.pnlPctOf) : ℚ) : ℝ) /
        Real.sqrt ((sampleVar ((engD.trades.filter Trade.isSell).map Trade.pnlPctOf) : ℚ) : ℝ) := by
  rw [sharpe_engD, engD_returns, npMean_02, sampleVar_02]
  have hlt : ((1 : ℚ) : ℝ) / Real.sqrt ((2 : ℚ) : ℝ) < 1 := by
    push_cast
    rw [div_lt_one (Real.sqrt_pos.mpr (by norm_num))]
    nlinarith [Real.sq_sqrt (show (0 : ℝ) ≤ 2 by norm_num), Real.sqrt_nonneg (2 : ℝ)]
  exact (ne_of_lt hlt).symm

/-- C8 as amended: the reported `sharpe_ratio` is the mean of the closing
trades' `pnl_pct` divided by their *population* (`ddof = 0`) standard
deviation, and `0` when fewer than two closing trades exist or that standard
deviation is `0`. -/
theorem sharpe_ratio_spec (e : Engine) (h : e.trades ≠ []) :
    (1 < (e.trades.filter Trade.isSell).length →
      0 < npVar ((e.trades.filter Trade.isSell).map Trade.pnlPctOf) →
      sharpe_ratio_of e =
        ((npMean ((e.trades.filter Trade.isSell).map Trade.pnlPctOf) : ℚ) : ℝ) /
          Real.sqrt ((npVar ((e.trades.filter Trade.isSell).map Trade.pnlPctOf) : ℚ) : ℝ)) ∧
    ((e.trades.filter Trade.isSell).length ≤ 1 → sharpe_ratio_of e = 0) ∧
    (npVar ((e.trades.filter Trade.isSell).map Trade.pnlPctOf) = 0 →
      sharpe_ratio_of e = 0) := by
  refine ⟨?_, ?_, ?_⟩
  · intro hlen hv
    simp only [sharpe_ratio_of, npStd]
    rw [if_pos hlen, if_pos (Real.sqrt_pos.mpr (by exact_mod_cast hv))]
  · intro hlen
    simp only [sharpe_ratio_of]
    rw [if_neg (not_lt.mpr hlen)]
  · intro hv
    simp only [sharpe_ratio_of, npStd]
    by_cases hlen : 1 < (e.trades.filter Trade.isSell).length
    · rw [if_pos hlen, if_neg (by rw [hv]; push_cast; rw [Real.sqrt_zero]; exact lt_irrefl 0)]
    · rw [if_neg hlen]

/-- C8 witness: the amended statement instantiated at `engD`, where the
population variance of the returns is `1`. -/
theorem sharpe_ratio_spec_witness :
    (engD.trades ≠ [] ∧ 1 < (engD.trades.filter Trade.isSell).length ∧
      0 < npVar ((engD.trades.filter Trade.isSell).map Trade.pnlPctOf)) ∧
    sharpe_ratio_of engD =
      ((npMean ((engD.trades.filter Trade.isSell).map Trade.pnlPctOf) : ℚ) : ℝ) /
        Real.sqrt ((npVar ((engD.trades.filter Trade.isSell).map Trade.pnlPctOf) : ℚ) : ℝ) :=
  ⟨⟨by simp [engD_eval, engZero, mkEngine],
      by rw [engD_sell_filter]; norm_num,
      by rw [engD_returns, npVar_02]; norm_num⟩,
    (sharpe_ratio_spec engD (by simp [engD_eval, engZero, mkEngine])).1
      (by rw [engD_sell_filter]; norm_num)
      (by rw [engD_returns, npVar_02]; norm_num)⟩

theorem format2f_six : format2f 6 = "6.00" := by
  norm_num [format2f, round_eq]
  rfl

theorem pyIn_daily_reason : pyIn "daily" (strLower "達到每日虧損限制: 6.00%") = false := by
  decide

theorem pyIn_consec_reason : pyIn "daily" (strLower "連續虧損 3 次") = false := by
  decide

theorem rmDown_eval :
    rmDown =
      { config := cfg0
        initial_balance := 1000
        current_balance := 940
        equity := 940
        daily_start_balance := 1000
        daily_pnl := 0
        last_reset_date := 0
        consecutive_losses := 0
        max_consecutive_losses := 3
        circuit_breaker_active := false
        circuit_breaker_reason := none
        open_positions := [] } := by
  norm_num [rmDown, rmInit, rmZero, update_balance, check_daily_reset, initBalance,
    mkRiskManager, cfg0, RiskConfig.getMaxConsecutiveLosses]

theorem rmTripped_eval :
    rmTripped =
      { config := cfg0
        initial_balance := 1000
        current_balance := 940
        equity := 940
        daily_start_balance := 1000
        daily_pnl := 0
        last_reset_date := 0
        consecutive_losses := 0
        max_consecutive_losses := 3
        circuit_breaker_active := true
        circuit_breaker_reason := some "達到每日虧損限制: 6.00%"
        open_positions := [] } := by
  rw [rmTripped, rmDown_eval]
  norm_num [check_trade_allowed, dailyLossPct, activate_circuit_breaker, cfg0,
    RiskConfig.getEmergencyStop, RiskConfig.getMinAccountBalance, RiskConfig.getMaxDailyLoss,
    format2f_six]
  rfl

theorem rmNextDay_eval :
    rmNextDay.last_reset_date = 1 ∧ rmNextDay.circuit_breaker_active = true ∧
      rmNextDay.circuit_breaker_reason = some "達到每日虧損限制: 6.00%" := by
  rw [rmNextDay, rmTripped_eval]
  norm_num [update_balance, check_daily_reset, pyStr, pyIn_daily_reason]

theorem rmLoss3_eval :
    rmLoss3 =
      { config := cfg0
        initial_balance := 1000
        current_balance := 1000
        equity := 1000
        daily_start_balance := 1000
        daily_pnl := -30
        last_reset_date := 0
        consecutive_losses := 3
        max_consecutive_losses := 3
        circuit_breaker_active := true
        circuit_breaker_reason := some "連續虧損 3 次"
        open_positions := [] } := by
  norm_num [rmLoss3, rmLoss2, rmLoss1, rmInit, rmZero, record_trade_result,
    activate_circuit_breaker, initBalance, mkRiskManager, cfg0,
    RiskConfig.getMaxConsecutiveLosses]
  rfl

/-- C1: evidence that the code violates the claim.  After the daily-loss rule
trips the breaker (reason `達到每日虧損限制: 6.00%`), the day-1 `update_balance`
performs the rollover (`last_reset_date` advances) but leaves the breaker
active with its reason intact: the source tests for the ASCII substring
`'daily'` in a reason string that is Chinese, so the test can never succeed.
The consecutive-loss trip also survives, which is the one part the claim gets
right. -/
theorem daily_trip_survives_rollover :
    rmTripped.circuit_breaker_active = true ∧
    rmTripped.circuit_breaker_reason = some "達到每日虧損限制: 6.00%" ∧
    rmNextDay.last_reset_date = 1 ∧
    rmNextDay.circuit_breaker_active = true ∧
    rmNextDay.circuit_breaker_reason = some "達到每日虧損限制: 6.00%" ∧
    rmLoss3.circuit_breaker_active = true ∧
    rmLossNextDay.circuit_breaker_active = true := by
  refine ⟨by rw [rmTripped_eval], by rw [rmTripped_eval], rmNextDay_eval.1,
    rmNextDay_eval.2.1, rmNextDay_eval.2.2, by rw [rmLoss3_eval], ?_⟩
  rw [rmLossNextDay, rmLoss3_eval]
  norm_num [update_balance, check_daily_reset, pyStr, pyIn_consec_reason]

/-- One risk-manager step keeps `circuit_breaker_active = false ↔
circuit_breaker_reason = none`. -/
theorem rmStep_inv (s : RiskState) (op : RMOp)
    (h : s.circuit_breaker_active = false ↔ s.circuit_breaker_reason = none) :
    ((rmStep s op).circuit_breaker_active = false ↔
      (rmStep s op).circuit_breaker_reason = none) := by
  cases op with
  | init_balance b => exact h
  | update_bal d b q =>
    simp only [rmStep, update_balance, check_daily_reset, reset_circuit_breaker]
    split_ifs <;> simp_all
  | position_size p st => exact h
  | trade_allowed =>
    simp only [rmStep, check_trade_allowed, activate_circuit_breaker]
    split_ifs <;> simp_all
  | trade_result pnl w =>
    simp only [rmStep, record_trade_result, activate_circuit_breaker]
    split_ifs <;> simp_all
  | reset_breaker =>
    simp only [rmStep, reset_circuit_breaker]
    split_ifs <;> simp_all
  | add_pos sym side q p => exact h
  | remove_pos sym => exact h

/-- C10: from a fresh `RiskManager`, after any sequence of operations the
circuit breaker is inactive exactly when the stored reason is `None`:
activation always records a reason and resets always clear it. -/
theorem breaker_reason_invariant (config : RiskConfig) (today : ℕ) (ops : List RMOp) :
    ((ops.foldl rmStep (mkRiskManager config today)).circuit_breaker_active = false ↔
      (ops.foldl rmStep (mkRiskManager config today)).circuit_breaker_reason = none) := by
  have key : ∀ (l : List RMOp) (s : RiskState),
      (s.circuit_breaker_active = false ↔ s.circuit_breaker_reason = none) →
      ((l.foldl rmStep s).circuit_breaker_active = false ↔
        (l.foldl rmStep s).circuit_breaker_reason = none) := by
    intro l
    induction l with
    | nil => exact fun s hs => hs
    | cons op rest ih => exact fun s hs => ih (rmStep s op) (rmStep_inv s op hs)
  exact key ops (mkRiskManager config today) (by simp [mkRiskManager])

/-- C6: while the breaker is tripped, `check_trade_allowed` answers
`(false, reason)` without touching state and `calculate_position_size` answers
`(0, 0)`; no operation other than an explicit reset — or an `update_balance`
whose rollover finds a `'daily'`-attributed reason — ever clears it; and the
daily-loss check inside `check_trade_allowed`, when the ratio meets the
threshold, activates the breaker as a side effect. -/
theorem circuit_breaker_gate :
    (∀ s : RiskState, s.circuit_breaker_active = true →
      (check_trade_allowed s).1.1 = false ∧ ((check_trade_allowed s).1.2).isSome = true ∧
        (check_trade_allowed s).2 = s) ∧
    (∀ (s : RiskState) (price signal_strength : ℚ), s.circuit_breaker_active = true →
      calculate_position_size s price signal_strength = (0, 0)) ∧
    (∀ (s : RiskState) (op : RMOp), s.circuit_breaker_active = true →
      (rmStep s op).circuit_breaker_active = false →
      op = RMOp.reset_breaker ∨
        ∃ d b q, op = RMOp.update_bal d b q ∧ s.last_reset_date < d ∧
          pyIn "daily" (strLower (pyStr s.circuit_breaker_reason)) = true) ∧
    (∀ s : RiskState, s.circuit_breaker_active = false →
      s.config.getEmergencyStop = false →
      s.config.getMinAccountBalance < s.current_balance →
      s.config.getMaxDailyLoss ≤ dailyLossPct s →
      (check_trade_allowed s).1.1 = false ∧
        (check_trade_allowed s).2.circuit_breaker_active = true) := by
  refine ⟨?_, ?_, ?_, ?_⟩
  · intro s hs
    simp only [check_trade_allowed]
    rw [if_pos hs]
    exact ⟨rfl, rfl, rfl⟩
  · intro s price signal_strength hs
    simp only [calculate_position_size]
    rw [if_pos hs]
  · intro s op hs hafter
    cases op with
    | init_balance b => simp [rmStep, initBalance, hs] at hafter
    | update_bal d b q =>
      right
      simp only [rmStep, update_balance, check_daily_reset] at hafter
      by_cases h1 : s.last_reset_date < d
      · rw [if_pos h1] at hafter
        by_cases h2 : pyIn "daily" (strLower (pyStr s.circuit_breaker_reason)) = true
        · exact ⟨d, b, q, rfl, h1, h2⟩
        · rw [if_neg ?_] at hafter
          · simp [hs] at hafter
          · simp only [Bool.and_eq_true]
            exact fun hc => h2 hc.2
      · rw [if_neg h1] at hafter
        simp [hs] at hafter
    | position_size p st => simp [rmStep, hs] at hafter
    | trade_allowed =>
      simp [rmStep, check_trade_allowed, activate_circuit_breaker, hs] at hafter
    | trade_result pnl w =>
      simp only [rmStep, record_trade_result, activate_circuit_breaker] at hafter
      split_ifs at hafter <;> simp [hs] at hafter
    | add_pos sym side q p => simp [rmStep, add_position, hs] at hafter
    | remove_pos sym => simp [rmStep, remove_position, hs] at hafter
    | reset_breaker => exact Or.inl rfl
  · intro s hs hemg hbal hdl
    simp only [check_trade_allowed]
    rw [if_neg (by simp [hs]), if_neg (by simp [hemg]), if_neg (not_le.mpr hbal), if_pos hdl]
    exact ⟨rfl, rfl⟩

/-- C6 witness: the tripped state `rmTripped` is denied by both gates and only
a reset clears it; the 6%-down state `rmDown` meets the daily-loss ratio, and
checking allowance there denies the trade and trips the breaker. -/
theorem circuit_breaker_gate_witness :
    ((check_trade_allowed rmTripped).1.1 = false ∧
      ((check_trade_allowed rmTripped).1.2).isSome = true ∧
      (check_trade_allowed rmTripped).2 = rmTripped) ∧
    calculate_position_size rmTripped 50000 1 = (0, 0) ∧
    (RMOp.reset_breaker = RMOp.reset_breaker ∨
      ∃ d b q, RMOp.reset_breaker = RMOp.update_bal d b q ∧ rmTripped.last_reset_date < d ∧
        pyIn "daily" (strLower (pyStr rmTripped.circuit_breaker_reason)) = true) ∧
    ((check_trade_allowed rmDown).1.1 = false ∧
      (check_trade_allowed rmDown).2.circuit_breaker_active = true) :=
  ⟨circuit_breaker_gate.1 rmTripped (by rw [rmTripped_eval]),
    circuit_breaker_gate.2.1 rmTripped 50000 1 (by rw [rmTripped_eval]),
    circuit_breaker_gate.2.2.1 rmTripped RMOp.reset_breaker (by rw [rmTripped_eval])
      (by simp [rmStep, reset_circuit_breaker, rmTripped_eval]),
    circuit_breaker_gate.2.2.2 rmDown (by rw [rmDown_eval])
      (by rw [rmDown_eval]; rfl)
      (by rw [rmDown_eval]; norm_num [cfg0, RiskConfig.getMinAccountBalance])
      (by rw [rmDown_eval]; norm_num [dailyLossPct, cfg0, RiskConfig.getMaxDailyLoss])⟩

end Crypto
